import Mathlib

/-!
Shallow embedding of the user-service authentication subsystem
(`src/services/user-service.ts`, `src/services/jwt-service.ts`, the user
repository, and the table defaults from the migration file).

Conventions of the embedding:
* Database-generated values (row ids, `uuidv4` secrets, bcrypt salts) and the
  clock are passed as explicit arguments, making every function pure.
* bcrypt is modelled symbolically: a digest records the salt drawn at hashing
  time together with the hashed plaintext; `bcrypt.compare` checks the
  embedded plaintext, and two digests are equal exactly when both salt and
  plaintext agree (bcrypt digests embed their salt, so re-hashing with a
  fresh salt yields a different digest string).
* The JWT HMAC is modelled symbolically as a perfect MAC: the signature value
  records the signing secret, the claims and the expiry; verification checks
  that the carried signature is the one produced by the server secret.
* JS exceptions (`throw new ServiceError(...)`) become `Except ServiceError`.
* Timestamps are `Nat`. The JWT layer counts seconds (`jsonwebtoken` puts
  `exp` in seconds); the service layer counts milliseconds (`Date.now()`),
  matching the units each piece of source code uses.
-/

deriving instance DecidableEq for Except

namespace UserService

/-- Error codes from `src/types/errors.ts` (`ErrorCodes`). -/
inductive ErrorCode where
  | INVALID_EMAIL
  | WEAK_PASSWORD
  | USER_EXISTS
  | EMAIL_TAKEN
  | USERNAME_TAKEN
  | INVALID_CREDENTIALS
  | USER_NOT_FOUND
  | EXPIRED_TOKEN
  | INVALID_TOKEN
  | UNAUTHORIZED
  | DATABASE_ERROR
  | INTERNAL_ERROR
  | INVALID_RESET_TOKEN
  | RESET_TOKEN_EXPIRED
  deriving DecidableEq, Repr

/-- `ServiceError` from `src/types/errors.ts`: code, message, HTTP status. -/
structure ServiceError where
  code : ErrorCode
  message : String
  statusCode : Nat
  deriving DecidableEq, Repr

/-- A bcrypt digest: bcrypt embeds the salt in the digest string, so the
digest determines (salt, plaintext) and two digests coincide iff both parts
do. `bcrypt.compare` recovers the salt from the digest and re-hashes, which
the symbolic model renders as comparing the embedded plaintext. -/
structure BcryptDigest where
  salt : Nat
  plain : String
  deriving DecidableEq, Repr

/-- `bcrypt.hash(plain, SALT_ROUNDS)` with the fresh random salt made
explicit as an argument. -/
def bcryptHash (salt : Nat) (plain : String) : BcryptDigest :=
  ⟨salt, plain⟩

/-- `bcrypt.compare(plain, digest)`. -/
def bcryptCompare (plain : String) (digest : BcryptDigest) : Bool :=
  plain == digest.plain

/-! ## Token codec (`src/services/jwt-service.ts`) -/

/-- The `type` discriminator of `TokenPayload` (`src/types/user-types.ts`). -/
inductive TokenType where
  | access
  | refresh
  deriving DecidableEq, Repr

/-- `TokenPayload` from `src/types/user-types.ts`. -/
structure TokenClaims where
  userId : String
  email : String
  username : String
  type : TokenType
  deriving DecidableEq, Repr

/-- A symbolic HMAC signature: records the secret, the signed claims and the
signed expiry. Verification against a secret succeeds exactly when the
signature was produced over the same data with that secret. -/
structure Signature where
  secret : String
  claims : TokenClaims
  exp : Nat
  deriving DecidableEq, Repr

/-- Produce the (symbolic) signature `jwt.sign` computes. -/
def mkSig (secret : String) (claims : TokenClaims) (exp : Nat) : Signature :=
  ⟨secret, claims, exp⟩

/-- A compact token string: either a structurally well-formed signed token
(claims, embedded expiry, carried signature) or a malformed string that
`jwt.verify` rejects outright. -/
inductive Token where
  | signed (claims : TokenClaims) (exp : Nat) (sig : Signature)
  | malformed (raw : String)
  deriving DecidableEq, Repr

/-- `JWT_SECRET` default from `src/services/jwt-service.ts`. -/
def JWT_SECRET : String := "your-super-secret-jwt-key-change-in-production"

/-- `JWT_EXPIRY` default `'24h'`, in seconds as `jsonwebtoken` encodes it. -/
def JWT_EXPIRY : Nat := 24 * 60 * 60

/-- `JWT_REFRESH_EXPIRY` default `'7d'`, in seconds. -/
def JWT_REFRESH_EXPIRY : Nat := 7 * 24 * 60 * 60

/-- `generateAccessToken`: signs `{userId, email, username, type: 'access'}`
with expiry `now + JWT_EXPIRY`. -/
def generateAccessToken (now : Nat) (userId email username : String) : Token :=
  let payload : TokenClaims := ⟨userId, email, username, TokenType.access⟩
  Token.signed payload (now + JWT_EXPIRY) (mkSig JWT_SECRET payload (now + JWT_EXPIRY))

/-- `generateRefreshToken`: signs `{userId, email, username, type: 'refresh'}`
with expiry `now + JWT_REFRESH_EXPIRY`. -/
def generateRefreshToken (now : Nat) (userId email username : String) : Token :=
  let payload : TokenClaims := ⟨userId, email, username, TokenType.refresh⟩
  Token.signed payload (now + JWT_REFRESH_EXPIRY) (mkSig JWT_SECRET payload (now + JWT_REFRESH_EXPIRY))

/-- `ValidationResponse` from `src/types/user-types.ts` (optional fields). -/
structure ValidationResponse where
  valid : Bool
  userId : Option String
  email : Option String
  username : Option String
  deriving DecidableEq, Repr

/-- `validateToken`: `jwt.verify` checks the signature first and then the
embedded expiry (`TokenExpiredError` when `now >= exp`); the catch block
maps `TokenExpiredError` to `EXPIRED_TOKEN` and every other failure to
`INVALID_TOKEN`, both thrown as `ServiceError`s with status 401. -/
def validateToken (now : Nat) (t : Token) : Except ServiceError ValidationResponse :=
  match t with
  | Token.malformed _ =>
      Except.error ⟨ErrorCode.INVALID_TOKEN, "Invalid token", 401⟩
  | Token.signed claims exp sig =>
      if sig = mkSig JWT_SECRET claims exp then
        if exp ≤ now then
          Except.error ⟨ErrorCode.EXPIRED_TOKEN, "Token has expired", 401⟩
        else
          Except.ok ⟨true, some claims.userId, some claims.email, some claims.username⟩
      else
        Except.error ⟨ErrorCode.INVALID_TOKEN, "Invalid token", 401⟩

/-! ## Data model (`src/types/user-types.ts` and the migration defaults) -/

/-- A row of the `users` table: the `User` shape plus `password_hash`. -/
structure StoredUser where
  id : String
  email : String
  username : String
  password_hash : BcryptDigest
  created_at : Nat
  updated_at : Nat
  is_active : Bool
  deriving DecidableEq, Repr

/-- `User` from `src/types/user-types.ts`: the account as returned to
callers — no `password_hash` field exists in this shape. -/
structure User where
  id : String
  email : String
  username : String
  created_at : Nat
  updated_at : Nat
  is_active : Bool
  deriving DecidableEq, Repr

/-- The `RETURNING id, email, username, created_at, updated_at, is_active`
projection used by every user query except `findUserWithPassword`. -/
def StoredUser.toUser (u : StoredUser) : User :=
  ⟨u.id, u.email, u.username, u.created_at, u.updated_at, u.is_active⟩

/-- `UserProfile` row; migration defaults: `avatar_url NULL`, `level 1`,
`experience 0`, `stats_wins 0`, `stats_losses 0`. -/
structure UserProfile where
  id : String
  user_id : String
  avatar_url : Option String
  level : Int
  experience : Int
  stats_wins : Int
  stats_losses : Int
  created_at : Nat
  updated_at : Nat
  deriving DecidableEq, Repr

/-- `UserPreferences` row; migration defaults: `notifications_enabled true`,
`language 'en'`, `theme 'light'`. -/
structure UserPreferences where
  id : String
  user_id : String
  notifications_enabled : Bool
  language : String
  theme : String
  created_at : Nat
  updated_at : Nat
  deriving DecidableEq, Repr

/-- `PasswordResetToken` row of `password_reset_tokens`. -/
structure PasswordResetToken where
  id : String
  user_id : String
  token_hash : BcryptDigest
  expires_at : Nat
  created_at : Nat
  deriving DecidableEq, Repr

/-- The four relations managed by the record store. -/
structure Database where
  users : List StoredUser
  profiles : List UserProfile
  preferences : List UserPreferences
  resetTokens : List PasswordResetToken
  deriving DecidableEq, Repr

/-- `UserWithProfile` from `src/types/user-types.ts`. -/
structure UserWithProfile where
  user : User
  profile : UserProfile
  preferences : UserPreferences
  deriving DecidableEq, Repr

/-- `UpdateProfileRequest`: every field optional. -/
structure UpdateProfileRequest where
  avatar_url : Option String := none
  level : Option Int := none
  experience : Option Int := none
  stats_wins : Option Int := none
  stats_losses : Option Int := none
  deriving DecidableEq, Repr

/-- `UpdatePreferencesRequest`: every field optional. -/
structure UpdatePreferencesRequest where
  notifications_enabled : Option Bool := none
  language : Option String := none
  theme : Option String := none
  deriving DecidableEq, Repr

/-! ## Repository (`src/repositories/user-repository.ts`)

Row ids otherwise generated by `gen_random_uuid()` and the SQL
`CURRENT_TIMESTAMP` are explicit arguments. -/

/-- `createUser`: INSERT with schema defaults (`is_active true`, timestamps
now) returning the hashless projection. -/
def createUser (db : Database) (newId : String) (now : Nat)
    (email : String) (passwordHash : BcryptDigest) (username : String) :
    User × Database :=
  let row : StoredUser := ⟨newId, email, username, passwordHash, now, now, true⟩
  (row.toUser, { db with users := db.users ++ [row] })

/-- `createUserProfile`: INSERT only `user_id`; every other column takes its
schema default. -/
def createUserProfile (db : Database) (newId : String) (now : Nat)
    (userId : String) : UserProfile × Database :=
  let row : UserProfile := ⟨newId, userId, none, 1, 0, 0, 0, now, now⟩
  (row, { db with profiles := db.profiles ++ [row] })

/-- `createUserPreferences`: INSERT only `user_id`; defaults for the rest. -/
def createUserPreferences (db : Database) (newId : String) (now : Nat)
    (userId : String) : UserPreferences × Database :=
  let row : UserPreferences := ⟨newId, userId, true, "en", "light", now, now⟩
  (row, { db with preferences := db.preferences ++ [row] })

/-- `findUserByEmail`: SELECT hashless projection WHERE email matches. -/
def findUserByEmail (db : Database) (email : String) : Option User :=
  (db.users.find? (fun u => u.email == email)).map StoredUser.toUser

/-- `findUserByUsername`. -/
def findUserByUsername (db : Database) (username : String) : Option User :=
  (db.users.find? (fun u => u.username == username)).map StoredUser.toUser

/-- `findUserById`. -/
def findUserById (db : Database) (userId : String) : Option User :=
  (db.users.find? (fun u => u.id == userId)).map StoredUser.toUser

/-- `findUserWithPassword`: same lookup as `findUserByEmail` but keeping the
`password_hash` column. -/
def findUserWithPassword (db : Database) (email : String) : Option StoredUser :=
  db.users.find? (fun u => u.email == email)

/-- `findUserProfile`. -/
def findUserProfile (db : Database) (userId : String) : Option UserProfile :=
  db.profiles.find? (fun p => p.user_id == userId)

/-- `findUserPreferences`. -/
def findUserPreferences (db : Database) (userId : String) : Option UserPreferences :=
  db.preferences.find? (fun p => p.user_id == userId)

/-- The SET clause `updateUserProfile` builds: each field present in the
request is assigned, and `updated_at = CURRENT_TIMESTAMP` is always added. -/
def applyProfileUpdates (now : Nat) (updates : UpdateProfileRequest)
    (p : UserProfile) : UserProfile :=
  { p with
    avatar_url := match updates.avatar_url with
      | some v => some v
      | none => p.avatar_url
    level := updates.level.getD p.level
    experience := updates.experience.getD p.experience
    stats_wins := updates.stats_wins.getD p.stats_wins
    stats_losses := updates.stats_losses.getD p.stats_losses
    updated_at := now }

/-- `updateUserProfile`: UPDATE ... WHERE user_id = $n RETURNING the updated
row; zero rows updated raises `USER_NOT_FOUND` (404). -/
def updateUserProfile (now : Nat) (db : Database) (userId : String)
    (updates : UpdateProfileRequest) :
    Except ServiceError (UserProfile × Database) :=
  match db.profiles.find? (fun p => p.user_id == userId) with
  | none =>
      Except.error ⟨ErrorCode.USER_NOT_FOUND, "User profile not found", 404⟩
  | some p =>
      let db' := { db with
        profiles := db.profiles.map
          (fun q => if q.user_id == userId then applyProfileUpdates now updates q else q) }
      Except.ok (applyProfileUpdates now updates p, db')

/-- The SET clause `updateUserPreferences` builds. -/
def applyPreferencesUpdates (now : Nat) (updates : UpdatePreferencesRequest)
    (p : UserPreferences) : UserPreferences :=
  { p with
    notifications_enabled := updates.notifications_enabled.getD p.notifications_enabled
    language := updates.language.getD p.language
    theme := updates.theme.getD p.theme
    updated_at := now }

/-- `updateUserPreferences`: UPDATE ... WHERE user_id RETURNING; zero rows
updated raises `USER_NOT_FOUND` (404). -/
def updateUserPreferences (now : Nat) (db : Database) (userId : String)
    (updates : UpdatePreferencesRequest) :
    Except ServiceError (UserPreferences × Database) :=
  match db.preferences.find? (fun p => p.user_id == userId) with
  | none =>
      Except.error ⟨ErrorCode.USER_NOT_FOUND, "User preferences not found", 404⟩
  | some p =>
      let db' := { db with
        preferences := db.preferences.map
          (fun q => if q.user_id == userId then applyPreferencesUpdates now updates q else q) }
      Except.ok (applyPreferencesUpdates now updates p, db')

/-- `createPasswordResetToken`: INSERT returning the created row. -/
def createPasswordResetToken (db : Database) (newId : String) (now : Nat)
    (userId : String) (tokenHash : BcryptDigest) (expiresAt : Nat) :
    PasswordResetToken × Database :=
  let row : PasswordResetToken := ⟨newId, userId, tokenHash, expiresAt, now⟩
  (row, { db with resetTokens := db.resetTokens ++ [row] })

/-- `ORDER BY created_at DESC LIMIT 1` over a candidate list: the row with
the greatest creation time (the earlier row wins a tie). -/
def pickLatest : List PasswordResetToken → Option PasswordResetToken
  | [] => none
  | t :: ts =>
      match pickLatest ts with
      | none => some t
      | some u => if t.created_at < u.created_at then some u else some t

/-- `findPasswordResetToken`: SELECT WHERE `token_hash = $1 AND
expires_at > CURRENT_TIMESTAMP` ORDER BY created_at DESC LIMIT 1. -/
def findPasswordResetToken (now : Nat) (db : Database)
    (tokenHash : BcryptDigest) : Option PasswordResetToken :=
  pickLatest (db.resetTokens.filter
    (fun t => t.token_hash == tokenHash && now < t.expires_at))

/-- `deletePasswordResetToken`: DELETE WHERE `token_hash = $1`. -/
def deletePasswordResetToken (db : Database) (tokenHash : BcryptDigest) :
    Database :=
  { db with resetTokens := db.resetTokens.filter (fun t => !(t.token_hash == tokenHash)) }

/-- `updateUserPassword`: UPDATE users SET password_hash, updated_at WHERE id. -/
def updateUserPassword (now : Nat) (db : Database) (userId : String)
    (passwordHash : BcryptDigest) : Database :=
  { db with
    users := db.users.map
      (fun u =>
        if u.id == userId then
          { u with password_hash := passwordHash, updated_at := now }
        else u) }

/-! ## Auth orchestrator (`src/services/user-service.ts`) -/

/-- `PASSWORD_MIN_LENGTH`. -/
def PASSWORD_MIN_LENGTH : Nat := 8

/-- A character the email regex classes `[^\s@]` accepts: neither whitespace
nor `@`. -/
def isEmailChar (c : Char) : Bool :=
  !c.isWhitespace && !(c == '@')

/-- Split a character list at its first `@`, if any. -/
def splitAtSign : List Char → Option (List Char × List Char)
  | [] => none
  | c :: cs =>
      if c = '@' then some ([], cs)
      else
        match splitAtSign cs with
        | none => none
        | some (l, d) => some (c :: l, d)

/-- `EMAIL_REGEX = /^[^\s@]+@[^\s@]+\.[^\s@]+$/` as a decidable predicate:
a nonempty `@`-free, whitespace-free local part, exactly one `@`, and a
domain of `[^\s@]` characters containing a `.` with at least one character
on each side (the regex classes admit further dots on either side). -/
def validateEmail (s : String) : Bool :=
  match splitAtSign s.toList with
  | none => false
  | some (l, d) =>
      !l.isEmpty && l.all isEmailChar && d.all isEmailChar &&
        ((d.drop 1).dropLast.contains '.')

/-- `validatePassword`: length at least `PASSWORD_MIN_LENGTH`. -/
def validatePassword (password : String) : Bool :=
  PASSWORD_MIN_LENGTH ≤ password.length

/-- `RegisterRequest`. -/
structure RegisterRequest where
  email : String
  password : String
  username : String
  deriving DecidableEq, Repr

/-- `LoginRequest`. -/
structure LoginRequest where
  email : String
  password : String
  deriving DecidableEq, Repr

/-- `AuthResponse`: the hashless account plus the two issued tokens. -/
structure AuthResponse where
  user : User
  token : Token
  refreshToken : Token
  deriving DecidableEq, Repr

/-- `PasswordResetConfirm`. -/
structure PasswordResetConfirm where
  token : String
  newPassword : String
  deriving DecidableEq, Repr

/-- `registerUser`. The fresh values the flow consumes — the bcrypt salt and
the three row ids — are explicit arguments. -/
def registerUser (now : Nat) (salt : Nat) (userRowId profileRowId prefsRowId : String)
    (db : Database) (data : RegisterRequest) :
    Except ServiceError (AuthResponse × Database) :=
  if !validateEmail data.email then
    Except.error ⟨ErrorCode.INVALID_EMAIL, "Invalid email format", 400⟩
  else if !validatePassword data.password then
    Except.error ⟨ErrorCode.WEAK_PASSWORD, "Password must be at least 8 characters long", 400⟩
  else
    match findUserByEmail db data.email with
    | some _ =>
        Except.error ⟨ErrorCode.EMAIL_TAKEN, "Email is already registered", 409⟩
    | none =>
        match findUserByUsername db data.username with
        | some _ =>
            Except.error ⟨ErrorCode.USERNAME_TAKEN, "Username is already taken", 409⟩
        | none =>
            let passwordHash := bcryptHash salt data.password
            let (user, db1) := createUser db userRowId now data.email passwordHash data.username
            let (_, db2) := createUserProfile db1 profileRowId now user.id
            let (_, db3) := createUserPreferences db2 prefsRowId now user.id
            let token := generateAccessToken now user.id user.email user.username
            let refreshToken := generateRefreshToken now user.id user.email user.username
            Except.ok (⟨user, token, refreshToken⟩, db3)

/-- `loginUser`. -/
def loginUser (now : Nat) (db : Database) (data : LoginRequest) :
    Except ServiceError AuthResponse :=
  if !validateEmail data.email then
    Except.error ⟨ErrorCode.INVALID_EMAIL, "Invalid email format", 400⟩
  else
    match findUserWithPassword db data.email with
    | none =>
        Except.error ⟨ErrorCode.INVALID_CREDENTIALS, "Invalid email or password", 401⟩
    | some userWithPassword =>
        if !bcryptCompare data.password userWithPassword.password_hash then
          Except.error ⟨ErrorCode.INVALID_CREDENTIALS, "Invalid email or password", 401⟩
        else
          let user := userWithPassword.toUser
          let token := generateAccessToken now user.id user.email user.username
          let refreshToken := generateRefreshToken now user.id user.email user.username
          Except.ok ⟨user, token, refreshToken⟩

/-- The `{ token: string }` result shape of `refreshAccessToken`. -/
structure RefreshResponse where
  token : Token
  deriving DecidableEq, Repr

/-- The JS truthiness test `!validation.userId` on the optional `userId`
field: true when the field is absent or the empty string. -/
def userIdFalsy : Option String → Bool
  | none => true
  | some s => s == ""

/-- `refreshAccessToken`. `jwtService.validateToken` throws on any failed
verification and `refreshAccessToken` has no try/catch, so those
`ServiceError`s (`EXPIRED_TOKEN` as well as `INVALID_TOKEN`) propagate to
the caller unchanged; the in-function guard only fires for a verified token
whose `userId` claim is missing or falsy. -/
def refreshAccessToken (now : Nat) (db : Database) (refreshToken : Token) :
    Except ServiceError RefreshResponse :=
  match validateToken now refreshToken with
  | Except.error e => Except.error e
  | Except.ok validation =>
      if !validation.valid || userIdFalsy validation.userId then
        Except.error ⟨ErrorCode.INVALID_TOKEN, "Invalid refresh token", 401⟩
      else
        match findUserById db (validation.userId.getD "") with
        | none =>
            Except.error ⟨ErrorCode.USER_NOT_FOUND, "User not found", 404⟩
        | some user =>
            Except.ok ⟨generateAccessToken now user.id user.email user.username⟩

/-- `getUserWithProfile`. -/
def getUserWithProfile (db : Database) (userId : String) :
    Except ServiceError UserWithProfile :=
  match findUserById db userId with
  | none => Except.error ⟨ErrorCode.USER_NOT_FOUND, "User not found", 404⟩
  | some user =>
      match findUserProfile db userId with
      | none => Except.error ⟨ErrorCode.USER_NOT_FOUND, "User profile not found", 404⟩
      | some profile =>
          match findUserPreferences db userId with
          | none => Except.error ⟨ErrorCode.USER_NOT_FOUND, "User preferences not found", 404⟩
          | some preferences => Except.ok ⟨user, profile, preferences⟩

/-- `updateProfile` (service layer). -/
def updateProfile (now : Nat) (db : Database) (userId : String)
    (updates : UpdateProfileRequest) :
    Except ServiceError (UserWithProfile × Database) :=
  match findUserById db userId with
  | none => Except.error ⟨ErrorCode.USER_NOT_FOUND, "User not found", 404⟩
  | some user =>
      match updateUserProfile now db userId updates with
      | Except.error e => Except.error e
      | Except.ok (profile, db') =>
          match findUserPreferences db' userId with
          | none => Except.error ⟨ErrorCode.USER_NOT_FOUND, "User preferences not found", 404⟩
          | some preferences => Except.ok (⟨user, profile, preferences⟩, db')

/-- `updatePreferences` (service layer). -/
def updatePreferences (now : Nat) (db : Database) (userId : String)
    (updates : UpdatePreferencesRequest) :
    Except ServiceError (UserWithProfile × Database) :=
  match findUserById db userId with
  | none => Except.error ⟨ErrorCode.USER_NOT_FOUND, "User not found", 404⟩
  | some user =>
      match updateUserPreferences now db userId updates with
      | Except.error e => Except.error e
      | Except.ok (preferences, db') =>
          match findUserProfile db' userId with
          | none => Except.error ⟨ErrorCode.USER_NOT_FOUND, "User profile not found", 404⟩
          | some profile => Except.ok (⟨user, profile, preferences⟩, db')

/-- The anti-enumeration message `requestPasswordReset` always returns. -/
def resetRequestMessage : String :=
  "If the email exists, a password reset link has been sent"

/-- `requestPasswordReset`. The fresh `uuidv4()` secret, the bcrypt salt and
the inserted row id are explicit arguments; the clock is in milliseconds and
the stored expiry is `now + 60*60*1000`. -/
def requestPasswordReset (now : Nat) (secret : String) (salt : Nat)
    (tokenRowId : String) (db : Database) (email : String) :
    String × Database :=
  match findUserByEmail db email with
  | none => (resetRequestMessage, db)
  | some user =>
      let tokenHash := bcryptHash salt secret
      let expiresAt := now + 60 * 60 * 1000
      let (_, db') := createPasswordResetToken db tokenRowId now user.id tokenHash expiresAt
      (resetRequestMessage, db')

/-- `resetPassword`. The call draws two fresh bcrypt salts: `saltToken` for
re-hashing the supplied secret and `saltPassword` for the new password. -/
def resetPassword (now : Nat) (saltToken saltPassword : Nat) (db : Database)
    (data : PasswordResetConfirm) :
    Except ServiceError (String × Database) :=
  if !validatePassword data.newPassword then
    Except.error ⟨ErrorCode.WEAK_PASSWORD, "Password must be at least 8 characters long", 400⟩
  else
    let tokenHash := bcryptHash saltToken data.token
    match findPasswordResetToken now db tokenHash with
    | none =>
        Except.error ⟨ErrorCode.INVALID_RESET_TOKEN, "Invalid or expired reset token", 400⟩
    | some resetToken =>
        if resetToken.expires_at < now then
          Except.error ⟨ErrorCode.RESET_TOKEN_EXPIRED, "Reset token has expired", 400⟩
        else
          let newPasswordHash := bcryptHash saltPassword data.newPassword
          let db1 := updateUserPassword now db resetToken.user_id newPasswordHash
          let db2 := deletePasswordResetToken db1 tokenHash
          Except.ok ("Password has been reset successfully", db2)

/-! ## Concrete fixtures used by closed witness statements -/

/-- A stored account row used in closed instantiations. -/
def aliceStored : StoredUser := ⟨"u1", "a@b.c", "alice", bcryptHash 7 "password123", 0, 0, true⟩

/-- The hashless view of `aliceStored`. -/
def aliceUser : User := aliceStored.toUser

/-- A profile row for `aliceStored` with the schema defaults. -/
def aliceProfile : UserProfile := ⟨"p1", "u1", none, 1, 0, 0, 0, 0, 0⟩

/-- A preferences row for `aliceStored` with the schema defaults. -/
def alicePrefs : UserPreferences := ⟨"r1", "u1", true, "en", "light", 0, 0⟩

/-- A live reset ticket for `aliceStored`, hashed from the secret `"sec"`
with salt 0, expiring at t = 7200000. -/
def aliceTicket : PasswordResetToken := ⟨"t1", "u1", bcryptHash 0 "sec", 7200000, 0⟩

/-- A one-account database fixture. -/
def sampleDb : Database := ⟨[aliceStored], [aliceProfile], [alicePrefs], [aliceTicket]⟩

/-- The empty database. -/
def emptyDb : Database := ⟨[], [], [], []⟩

/-- A second live ticket for `aliceStored`, hashed from a different secret
`"other"` with salt 5. -/
def otherTicket : PasswordResetToken := ⟨"t2", "u1", bcryptHash 5 "other", 7200000, 50⟩

/-- A store holding two reset tickets derived from distinct secrets. -/
def twoTicketDb : Database := ⟨[aliceStored], [aliceProfile], [alicePrefs], [aliceTicket, otherTicket]⟩

/-- `twoTicketDb` after a reset of alice's password to `"newpassword1"`
(hashed with salt 2) at t = 100 that consumed `aliceTicket`; the ticket for
the other secret survives. -/
def twoTicketConsumedDb : Database :=
  ⟨[⟨"u1", "a@b.c", "alice", bcryptHash 2 "newpassword1", 0, 100, true⟩],
   [aliceProfile], [alicePrefs], [otherTicket]⟩

/-- A sibling ticket hashed from the same secret `"sec"` as `aliceTicket`
but with a different salt (1), as two `requestPasswordReset` runs drawing
the same secret would store. -/
def dupTicket : PasswordResetToken := ⟨"t3", "u1", bcryptHash 1 "sec", 7200000, 10⟩

/-- A store holding two live tickets that are both bcrypt digests of the
same secret `"sec"` (salts 0 and 1). -/
def dupDb : Database := ⟨[aliceStored], [aliceProfile], [alicePrefs], [aliceTicket, dupTicket]⟩

/-- `dupDb` after a first reset at t = 100 (token salt 0, password salt 2)
consumed `aliceTicket`: the sibling digest of the same secret remains. -/
def dupConsumedDb : Database :=
  ⟨[⟨"u1", "a@b.c", "alice", bcryptHash 2 "newpassword1", 0, 100, true⟩],
   [aliceProfile], [alicePrefs], [dupTicket]⟩

/-- `dupConsumedDb` after a second reset at t = 200 (token salt 1, password
salt 3) consumed `dupTicket` as well. -/
def dupFinalDb : Database :=
  ⟨[⟨"u1", "a@b.c", "alice", bcryptHash 3 "newpassword2", 0, 200, true⟩],
   [aliceProfile], [alicePrefs], []⟩

/-! ## Claim theorems -/

/-- C4: a token issued by `generateAccessToken` or `generateRefreshToken`
with time-to-live `JWT_EXPIRY` resp. `JWT_REFRESH_EXPIRY` validates
successfully (returning the embedded userId, email and username) at any time
strictly before the TTL has elapsed, fails with `EXPIRED_TOKEN` at any time
from the expiry instant on, and `validateToken` fails with `INVALID_TOKEN`
on every malformed token and on every token whose carried signature is not
the server-secret signature of its own claims and expiry (tampered payload,
tampered expiry, or wrong secret). -/
theorem c4_validate_token_windows (userId email username : String) (iat now : Nat) :
    (now < iat + JWT_EXPIRY →
      validateToken now (generateAccessToken iat userId email username) =
        Except.ok ⟨true, some userId, some email, some username⟩) ∧
    (iat + JWT_EXPIRY ≤ now →
      validateToken now (generateAccessToken iat userId email username) =
        Except.error ⟨ErrorCode.EXPIRED_TOKEN, "Token has expired", 401⟩) ∧
    (now < iat + JWT_REFRESH_EXPIRY →
      validateToken now (generateRefreshToken iat userId email username) =
        Except.ok ⟨true, some userId, some email, some username⟩) ∧
    (iat + JWT_REFRESH_EXPIRY ≤ now →
      validateToken now (generateRefreshToken iat userId email username) =
        Except.error ⟨ErrorCode.EXPIRED_TOKEN, "Token has expired", 401⟩) ∧
    (∀ raw, validateToken now (Token.malformed raw) =
        Except.error ⟨ErrorCode.INVALID_TOKEN, "Invalid token", 401⟩) ∧
    (∀ claims exp sig, sig ≠ mkSig JWT_SECRET claims exp →
      validateToken now (Token.signed claims exp sig) =
        Except.error ⟨ErrorCode.INVALID_TOKEN, "Invalid token", 401⟩) := by
  refine ⟨?_, ?_, ?_, ?_, ?_, ?_⟩
  · intro h
    simp [generateAccessToken, validateToken, Nat.not_le.mpr h]
  · intro h
    simp [generateAccessToken, validateToken, h]
  · intro h
    simp [generateRefreshToken, validateToken, Nat.not_le.mpr h]
  · intro h
    simp [generateRefreshToken, validateToken, h]
  · intro raw
    simp [validateToken]
  · intro claims exp sig hne
    simp [validateToken, hne]

/-- Closed instantiation of `c4_validate_token_windows`: concrete checks of
all six clauses at explicit tokens and clock values. -/
theorem c4_validate_token_windows_witness :
    validateToken 10 (generateAccessToken 0 "u" "e" "n") =
      Except.ok ⟨true, some "u", some "e", some "n"⟩ ∧
    validateToken 86400 (generateAccessToken 0 "u" "e" "n") =
      Except.error ⟨ErrorCode.EXPIRED_TOKEN, "Token has expired", 401⟩ ∧
    validateToken 10 (generateRefreshToken 0 "u" "e" "n") =
      Except.ok ⟨true, some "u", some "e", some "n"⟩ ∧
    validateToken 604800 (generateRefreshToken 0 "u" "e" "n") =
      Except.error ⟨ErrorCode.EXPIRED_TOKEN, "Token has expired", 401⟩ ∧
    validateToken 10 (Token.malformed "not-a-jwt") =
      Except.error ⟨ErrorCode.INVALID_TOKEN, "Invalid token", 401⟩ ∧
    validateToken 10 (Token.signed ⟨"u", "e", "n", TokenType.access⟩ 99
        (mkSig "wrong-secret" ⟨"u", "e", "n", TokenType.access⟩ 99)) =
      Except.error ⟨ErrorCode.INVALID_TOKEN, "Invalid token", 401⟩ :=
  ⟨(c4_validate_token_windows "u" "e" "n" 0 10).1 (by decide),
   (c4_validate_token_windows "u" "e" "n" 0 86400).2.1 (by decide),
   (c4_validate_token_windows "u" "e" "n" 0 10).2.2.1 (by decide),
   (c4_validate_token_windows "u" "e" "n" 0 604800).2.2.2.1 (by decide),
   (c4_validate_token_windows "u" "e" "n" 0 10).2.2.2.2.1 "not-a-jwt",
   (c4_validate_token_windows "u" "e" "n" 0 10).2.2.2.2.2
     ⟨"u", "e", "n", TokenType.access⟩ 99
     (mkSig "wrong-secret" ⟨"u", "e", "n", TokenType.access⟩ 99) (by decide)⟩

/-- C2 counterexample: on an expired, correctly signed token,
`refreshAccessToken` fails with the `EXPIRED_TOKEN` kind — the `ServiceError`
thrown inside `validateToken` propagates uncaught — refuting the claim that
every verification failure surfaces as `INVALID_TOKEN` and never
`EXPIRED_TOKEN`. -/
theorem c2_expired_refresh_counterexample :
    refreshAccessToken 10 sampleDb
        (Token.signed ⟨"u1", "a@b.c", "alice", TokenType.refresh⟩ 5
          (mkSig JWT_SECRET ⟨"u1", "a@b.c", "alice", TokenType.refresh⟩ 5)) =
      Except.error ⟨ErrorCode.EXPIRED_TOKEN, "Token has expired", 401⟩ ∧
    ErrorCode.EXPIRED_TOKEN ≠ ErrorCode.INVALID_TOKEN := by
  exact ⟨by decide, by decide⟩

/-- C2 (amended): `refreshAccessToken` fails with the `INVALID_TOKEN` kind on
every malformed token and every token whose signature is not the
server-secret signature of its own contents (tampered or wrongly signed),
but on an expired, correctly signed token it fails with `EXPIRED_TOKEN`,
which propagates uncaught from `validateToken`. -/
theorem c2_refresh_error_kinds (now : Nat) (db : Database) :
    (∀ raw, refreshAccessToken now db (Token.malformed raw) =
        Except.error ⟨ErrorCode.INVALID_TOKEN, "Invalid token", 401⟩) ∧
    (∀ claims exp sig, sig ≠ mkSig JWT_SECRET claims exp →
      refreshAccessToken now db (Token.signed claims exp sig) =
        Except.error ⟨ErrorCode.INVALID_TOKEN, "Invalid token", 401⟩) ∧
    (∀ claims exp, exp ≤ now →
      refreshAccessToken now db
          (Token.signed claims exp (mkSig JWT_SECRET claims exp)) =
        Except.error ⟨ErrorCode.EXPIRED_TOKEN, "Token has expired", 401⟩) := by
  refine ⟨?_, ?_, ?_⟩
  · intro raw
    simp [refreshAccessToken, validateToken]
  · intro claims exp sig hne
    simp [refreshAccessToken, validateToken, hne]
  · intro claims exp h
    simp [refreshAccessToken, validateToken, h]

/-- Closed instantiation of `c2_refresh_error_kinds` at concrete tokens. -/
theorem c2_refresh_error_kinds_witness :
    refreshAccessToken 10 sampleDb (Token.malformed "garbage") =
      Except.error ⟨ErrorCode.INVALID_TOKEN, "Invalid token", 401⟩ ∧
    refreshAccessToken 10 sampleDb (Token.signed ⟨"u1", "a@b.c", "alice", TokenType.refresh⟩ 99
        (mkSig "attacker-secret" ⟨"u1", "a@b.c", "alice", TokenType.refresh⟩ 99)) =
      Except.error ⟨ErrorCode.INVALID_TOKEN, "Invalid token", 401⟩ ∧
    refreshAccessToken 10 sampleDb (Token.signed ⟨"u1", "a@b.c", "alice", TokenType.refresh⟩ 5
        (mkSig JWT_SECRET ⟨"u1", "a@b.c", "alice", TokenType.refresh⟩ 5)) =
      Except.error ⟨ErrorCode.EXPIRED_TOKEN, "Token has expired", 401⟩ :=
  ⟨(c2_refresh_error_kinds 10 sampleDb).1 "garbage",
   (c2_refresh_error_kinds 10 sampleDb).2.1 ⟨"u1", "a@b.c", "alice", TokenType.refresh⟩ 99
     (mkSig "attacker-secret" ⟨"u1", "a@b.c", "alice", TokenType.refresh⟩ 99) (by decide),
   (c2_refresh_error_kinds 10 sampleDb).2.2 ⟨"u1", "a@b.c", "alice", TokenType.refresh⟩ 5 (by decide)⟩

/-- C3 counterexample: an unexpired, correctly signed token whose claimed
user id is the empty string fails `refreshAccessToken` with `INVALID_TOKEN`
even though an account with that id exists in the store — the JS truthiness
guard `!validation.userId` treats the empty string as missing — refuting the
claim for that input. -/
theorem c3_empty_userid_counterexample :
    (findUserById ⟨[⟨"", "e@x.y", "n", bcryptHash 0 "password123", 0, 0, true⟩], [], [], []⟩ "").isSome = true ∧
    refreshAccessToken 0 ⟨[⟨"", "e@x.y", "n", bcryptHash 0 "password123", 0, 0, true⟩], [], [], []⟩
        (Token.signed ⟨"", "e@x.y", "n", TokenType.refresh⟩ 100
          (mkSig JWT_SECRET ⟨"", "e@x.y", "n", TokenType.refresh⟩ 100)) =
      Except.error ⟨ErrorCode.INVALID_TOKEN, "Invalid refresh token", 401⟩ := by
  exact ⟨by decide, by decide⟩

/-- C3 (amended): `refreshAccessToken` never inspects the token's type
discriminator: for every unexpired, correctly signed token whose claimed
user id is nonempty and names an account in the store, it succeeds and
returns a fresh access token for that account — the claims' `type` field is
universally quantified, so the result is the same whether the supplied
token is tagged `access` or `refresh`. -/
theorem c3_refresh_ignores_token_type (now exp : Nat) (db : Database)
    (claims : TokenClaims) (u : User)
    (hexp : now < exp) (hid : claims.userId ≠ "")
    (hfind : findUserById db claims.userId = some u) :
    refreshAccessToken now db
        (Token.signed claims exp (mkSig JWT_SECRET claims exp)) =
      Except.ok ⟨generateAccessToken now u.id u.email u.username⟩ := by
  simp [refreshAccessToken, validateToken, Nat.not_le.mpr hexp, userIdFalsy,
    beq_iff_eq, hid, hfind]

/-- Closed instantiation of `c3_refresh_ignores_token_type` with a token
whose type tag is `access`. -/
theorem c3_refresh_ignores_token_type_witness :
    refreshAccessToken 50 sampleDb
        (Token.signed ⟨"u1", "a@b.c", "alice", TokenType.access⟩ 100
          (mkSig JWT_SECRET ⟨"u1", "a@b.c", "alice", TokenType.access⟩ 100)) =
      Except.ok ⟨generateAccessToken 50 "u1" "a@b.c" "alice"⟩ :=
  c3_refresh_ignores_token_type 50 100 sampleDb
    ⟨"u1", "a@b.c", "alice", TokenType.access⟩ aliceUser
    (by decide) (by decide) (by decide)

/-- C1 (code bug): `sampleDb` holds a non-expired reset ticket whose stored
digest is `bcrypt(salt 0, "sec")`, created by `requestPasswordReset` from
the secret `"sec"`; the ticket is live at t = 100 and is found by its
original digest. Yet `resetPassword` with that same secret and a
policy-compliant new password fails with `INVALID_RESET_TOKEN`, because it
re-hashes the secret with a fresh bcrypt salt (here 1) and the exact-match
lookup of that new digest finds nothing — the salted digests differ, so the
code's reset flow can never match the stored ticket. -/
theorem c1_reset_password_digest_mismatch :
    aliceTicket.token_hash = bcryptHash 0 "sec" ∧
    findPasswordResetToken 100 sampleDb (bcryptHash 0 "sec") = some aliceTicket ∧
    validatePassword "newpassword1" = true ∧
    bcryptHash 1 "sec" ≠ bcryptHash 0 "sec" ∧
    resetPassword 100 1 2 sampleDb ⟨"sec", "newpassword1"⟩ =
      Except.error ⟨ErrorCode.INVALID_RESET_TOKEN, "Invalid or expired reset token", 400⟩ := by
  exact ⟨by decide, by decide, by decide, by decide, by decide⟩

/-- A ticket returned by `pickLatest` is an element of the candidate list. -/
theorem pickLatest_mem {l : List PasswordResetToken} {t : PasswordResetToken}
    (h : pickLatest l = some t) : t ∈ l := by
  induction l with
  | nil => simp [pickLatest] at h
  | cons a as ih =>
    simp only [pickLatest] at h
    cases hrec : pickLatest as with
    | none =>
      rw [hrec] at h
      simp only [Option.some.injEq] at h
      simp [h]
    | some u =>
      rw [hrec] at h
      by_cases hlt : a.created_at < u.created_at
      · simp only [if_pos hlt, Option.some.injEq] at h
        rw [h] at hrec
        exact List.mem_cons_of_mem a (ih hrec)
      · simp only [if_neg hlt, Option.some.injEq] at h
        simp [h]

/-- A ticket found by `findPasswordResetToken` is a stored ticket whose
digest equals the looked-up digest and whose expiry is still ahead. -/
theorem findPasswordResetToken_spec {now : Nat} {db : Database}
    {h : BcryptDigest} {tk : PasswordResetToken}
    (hf : findPasswordResetToken now db h = some tk) :
    tk ∈ db.resetTokens ∧ tk.token_hash = h ∧ now < tk.expires_at := by
  unfold findPasswordResetToken at hf
  have hmem := pickLatest_mem hf
  rw [List.mem_filter] at hmem
  have hpred := (Bool.and_eq_true _ _).mp hmem.2
  exact ⟨hmem.1, eq_of_beq hpred.1, of_decide_eq_true hpred.2⟩

/-- C7 counterexample: in a store holding two live tickets that are both
bcrypt digests of the same secret (salts 0 and 1 — the state two
`requestPasswordReset` runs drawing the same secret leave behind), a first
`resetPassword` succeeds and consumes one ticket, and a second
`resetPassword` with the very same secret succeeds as well by consuming the
sibling ticket, instead of failing with `INVALID_RESET_TOKEN` as the claim
states. -/
theorem c7_sibling_ticket_counterexample :
    resetPassword 100 0 2 dupDb ⟨"sec", "newpassword1"⟩ =
      Except.ok ("Password has been reset successfully", dupConsumedDb) ∧
    resetPassword 200 1 3 dupConsumedDb ⟨"sec", "newpassword2"⟩ =
      Except.ok ("Password has been reset successfully", dupFinalDb) ∧
    resetPassword 200 1 3 dupConsumedDb ⟨"sec", "newpassword2"⟩ ≠
      Except.error ⟨ErrorCode.INVALID_RESET_TOKEN, "Invalid or expired reset token", 400⟩ := by
  exact ⟨by decide, by decide, by decide⟩

/-- C7 (amended): for every store, every reset ticket consumed by a
successful `resetPassword` call is deleted — no stored ticket with its
digest survives the call, so the consumed ticket itself is never reusable
after the update-and-delete completes — and a second `resetPassword` call
with the same secret and a policy-compliant new password fails with
`INVALID_RESET_TOKEN` provided no other stored ticket was a bcrypt digest
of that same secret (otherwise the second call can consume the sibling
ticket, as the counterexample shows). -/
theorem c7_reset_ticket_consumed_once
    (now now2 saltT saltP saltT2 saltP2 : Nat) (db db' : Database)
    (tk : PasswordResetToken) (secret pw pw2 msg : String)
    (hfound : findPasswordResetToken now db (bcryptHash saltT secret) = some tk)
    (honly : ∀ t ∈ db.resetTokens, t.token_hash.plain = secret →
      t.token_hash = tk.token_hash)
    (hpw2 : validatePassword pw2 = true)
    (hfirst : resetPassword now saltT saltP db ⟨secret, pw⟩ = Except.ok (msg, db')) :
    (∀ t ∈ db'.resetTokens, t.token_hash ≠ tk.token_hash) ∧
    tk ∉ db'.resetTokens ∧
    resetPassword now2 saltT2 saltP2 db' ⟨secret, pw2⟩ =
      Except.error ⟨ErrorCode.INVALID_RESET_TOKEN, "Invalid or expired reset token", 400⟩ := by
  obtain ⟨hmem, hhash, hlive⟩ := findPasswordResetToken_spec hfound
  cases hval : validatePassword pw with
  | false => simp [resetPassword, hval] at hfirst
  | true =>
    simp only [resetPassword, hval, Bool.not_true, Bool.false_eq_true, if_false,
      hfound] at hfirst
    by_cases hlt : tk.expires_at < now
    · simp [hlt] at hfirst
    · simp only [hlt, if_false, Except.ok.injEq, Prod.mk.injEq] at hfirst
      have hdb : db' = deletePasswordResetToken
          (updateUserPassword now db tk.user_id (bcryptHash saltP pw))
          (bcryptHash saltT secret) :=
        hfirst.2.symm
      have hdbtokens : db'.resetTokens =
          db.resetTokens.filter (fun t => !(t.token_hash == bcryptHash saltT secret)) := by
        rw [hdb]
        rfl
      have hclean : ∀ t ∈ db'.resetTokens, t.token_hash ≠ tk.token_hash := by
        intro t ht
        rw [hdbtokens, List.mem_filter] at ht
        have hne : (t.token_hash == bcryptHash saltT secret) = false := by
          simpa using ht.2
        rw [hhash]
        intro hcontra
        rw [hcontra] at hne
        simp at hne
      refine ⟨hclean, fun hin => hclean tk hin rfl, ?_⟩
      have hnone : findPasswordResetToken now2 db' (bcryptHash saltT2 secret) = none := by
        unfold findPasswordResetToken
        have hfilter : db'.resetTokens.filter
            (fun t => t.token_hash == bcryptHash saltT2 secret && decide (now2 < t.expires_at)) = [] := by
          rw [List.filter_eq_nil_iff]
          intro t ht hcontra
          have h1 : t.token_hash = bcryptHash saltT2 secret :=
            eq_of_beq ((Bool.and_eq_true _ _).mp hcontra).1
          have hplain : t.token_hash.plain = secret := by
            rw [h1]
            rfl
          have htin : t ∈ db.resetTokens := by
            rw [hdbtokens, List.mem_filter] at ht
            exact ht.1
          exact hclean t ht (honly t htin hplain)
        rw [hfilter]
        rfl
      simp [resetPassword, hpw2, hnone]

/-- Closed instantiation of `c7_reset_ticket_consumed_once` on a two-ticket
store whose tickets come from distinct secrets: a salt-collision run
consumes the ticket for `"sec"`, no ticket bearing its digest survives, and
a second reset with the same secret fails while the unrelated ticket is
untouched. -/
theorem c7_reset_ticket_consumed_once_witness :
    (∀ t ∈ twoTicketConsumedDb.resetTokens, t.token_hash ≠ aliceTicket.token_hash) ∧
    aliceTicket ∉ twoTicketConsumedDb.resetTokens ∧
    resetPassword 200 9 9 twoTicketConsumedDb ⟨"sec", "newpassword2"⟩ =
      Except.error ⟨ErrorCode.INVALID_RESET_TOKEN, "Invalid or expired reset token", 400⟩ :=
  c7_reset_ticket_consumed_once 100 200 0 2 9 9 twoTicketDb twoTicketConsumedDb
    aliceTicket "sec" "newpassword1" "newpassword2" "Password has been reset successfully"
    (by decide) (by decide) (by decide) (by decide)

/-- C9: `requestPasswordReset` returns the identical success-message string
whether or not an account with the supplied email exists (and leaves the
store untouched in the absent case); in the account-exists run the stored
ticket field is the bcrypt digest of the generated secret — not the secret
string — with expiry exactly one hour (3 600 000 ms) after the call. -/
theorem c9_reset_request_uniform_message
    (now now2 salt salt2 : Nat) (secret secret2 rowId rowId2 email email2 : String)
    (dbAbsent dbPresent : Database) (u : User)
    (habsent : findUserByEmail dbAbsent email = none)
    (hpresent : findUserByEmail dbPresent email2 = some u) :
    (requestPasswordReset now secret salt rowId dbAbsent email).1 =
      (requestPasswordReset now2 secret2 salt2 rowId2 dbPresent email2).1 ∧
    (requestPasswordReset now secret salt rowId dbAbsent email).1 = resetRequestMessage ∧
    (requestPasswordReset now secret salt rowId dbAbsent email).2 = dbAbsent ∧
    (requestPasswordReset now2 secret2 salt2 rowId2 dbPresent email2).2.resetTokens =
      dbPresent.resetTokens ++
        [⟨rowId2, u.id, bcryptHash salt2 secret2, now2 + 60 * 60 * 1000, now2⟩] := by
  refine ⟨?_, ?_, ?_, ?_⟩
  · simp [requestPasswordReset, habsent, hpresent, createPasswordResetToken]
  · simp [requestPasswordReset, habsent]
  · simp [requestPasswordReset, habsent]
  · simp [requestPasswordReset, hpresent, createPasswordResetToken, bcryptHash]

/-- Closed instantiation of `c9_reset_request_uniform_message`: an absent
email against the empty store versus alice's email against `sampleDb`. -/
theorem c9_reset_request_uniform_message_witness :
    (requestPasswordReset 0 "s1" 4 "t9" emptyDb "ghost@x.y").1 =
      (requestPasswordReset 5 "s2" 6 "t8" sampleDb "a@b.c").1 ∧
    (requestPasswordReset 0 "s1" 4 "t9" emptyDb "ghost@x.y").1 = resetRequestMessage ∧
    (requestPasswordReset 0 "s1" 4 "t9" emptyDb "ghost@x.y").2 = emptyDb ∧
    (requestPasswordReset 5 "s2" 6 "t8" sampleDb "a@b.c").2.resetTokens =
      sampleDb.resetTokens ++ [⟨"t8", "u1", bcryptHash 6 "s2", 5 + 60 * 60 * 1000, 5⟩] :=
  c9_reset_request_uniform_message 0 5 4 6 "s1" "s2" "t9" "t8" "ghost@x.y" "a@b.c"
    emptyDb sampleDb aliceUser (by decide) (by decide)

/-- C6: for every well-formed email, `loginUser` returns the very same
`ServiceError` value — code `INVALID_CREDENTIALS`, message
"Invalid email or password", status 401 — both when no account with that
email exists and when the account exists but the password does not match
its hash, so the two failures are not distinguishable by response shape. -/
theorem c6_login_uniform_failure (now : Nat) (db : Database) (data : LoginRequest)
    (hvalid : validateEmail data.email = true) :
    (findUserWithPassword db data.email = none →
      loginUser now db data =
        Except.error ⟨ErrorCode.INVALID_CREDENTIALS, "Invalid email or password", 401⟩) ∧
    (∀ u, findUserWithPassword db data.email = some u →
      bcryptCompare data.password u.password_hash = false →
      loginUser now db data =
        Except.error ⟨ErrorCode.INVALID_CREDENTIALS, "Invalid email or password", 401⟩) := by
  constructor
  · intro habsent
    simp [loginUser, hvalid, habsent]
  · intro u hfound hbad
    simp [loginUser, hvalid, hfound, hbad]

/-- Closed instantiation of `c6_login_uniform_failure`: a nonexistent email
and a wrong password against `sampleDb` yield the same error value. -/
theorem c6_login_uniform_failure_witness :
    loginUser 0 sampleDb ⟨"ghost@x.y", "password123"⟩ =
      Except.error ⟨ErrorCode.INVALID_CREDENTIALS, "Invalid email or password", 401⟩ ∧
    loginUser 0 sampleDb ⟨"a@b.c", "wrongpassword"⟩ =
      Except.error ⟨ErrorCode.INVALID_CREDENTIALS, "Invalid email or password", 401⟩ :=
  ⟨(c6_login_uniform_failure 0 sampleDb ⟨"ghost@x.y", "password123"⟩ (by decide)).1 (by decide),
   (c6_login_uniform_failure 0 sampleDb ⟨"a@b.c", "wrongpassword"⟩ (by decide)).2
     aliceStored (by decide) (by decide)⟩

/-- C5: for every well-formed email, password of length at least 8, and
email and username free in the store, `registerUser` succeeds: it appends
the account row (hashed password), then a profile with level 1, experience
0, wins 0, losses 0, then preferences with notifications on, language "en"
and theme "light", and returns the account in its hashless shape together
with an access token and a refresh token that both validate to the new
account's id, email and username. -/
theorem c5_register_success (now salt : Nat) (uid pid rid : String)
    (db : Database) (data : RegisterRequest)
    (hemail : validateEmail data.email = true)
    (hpw : PASSWORD_MIN_LENGTH ≤ data.password.length)
    (hfree : findUserByEmail db data.email = none)
    (hname : findUserByUsername db data.username = none) :
    ∃ resp db',
      registerUser now salt uid pid rid db data = Except.ok (resp, db') ∧
      resp.user = ⟨uid, data.email, data.username, now, now, true⟩ ∧
      resp.token = generateAccessToken now uid data.email data.username ∧
      resp.refreshToken = generateRefreshToken now uid data.email data.username ∧
      db'.users = db.users ++
        [⟨uid, data.email, data.username, bcryptHash salt data.password, now, now, true⟩] ∧
      db'.profiles = db.profiles ++ [⟨pid, uid, none, 1, 0, 0, 0, now, now⟩] ∧
      db'.preferences = db.preferences ++ [⟨rid, uid, true, "en", "light", now, now⟩] ∧
      db'.resetTokens = db.resetTokens ∧
      validateToken now resp.token =
        Except.ok ⟨true, some uid, some data.email, some data.username⟩ ∧
      validateToken now resp.refreshToken =
        Except.ok ⟨true, some uid, some data.email, some data.username⟩ := by
  refine ⟨⟨⟨uid, data.email, data.username, now, now, true⟩,
          generateAccessToken now uid data.email data.username,
          generateRefreshToken now uid data.email data.username⟩,
        ⟨db.users ++ [⟨uid, data.email, data.username, bcryptHash salt data.password, now, now, true⟩],
         db.profiles ++ [⟨pid, uid, none, 1, 0, 0, 0, now, now⟩],
         db.preferences ++ [⟨rid, uid, true, "en", "light", now, now⟩],
         db.resetTokens⟩, ?_, rfl, rfl, rfl, rfl, rfl, rfl, rfl, ?_, ?_⟩
  · simp [registerUser, hemail, validatePassword, hpw, hfree, hname,
      createUser, createUserProfile, createUserPreferences, StoredUser.toUser]
  · simp [validateToken, generateAccessToken, JWT_EXPIRY]
  · simp [validateToken, generateRefreshToken, JWT_REFRESH_EXPIRY]

/-- Closed instantiation of `c5_register_success` on the empty store. -/
theorem c5_register_success_witness :
    ∃ resp db',
      registerUser 0 3 "nu" "np" "nr" emptyDb ⟨"x@y.z", "password123", "bob"⟩ =
        Except.ok (resp, db') ∧
      resp.user = ⟨"nu", "x@y.z", "bob", 0, 0, true⟩ ∧
      resp.token = generateAccessToken 0 "nu" "x@y.z" "bob" ∧
      resp.refreshToken = generateRefreshToken 0 "nu" "x@y.z" "bob" ∧
      db'.users = emptyDb.users ++
        [⟨"nu", "x@y.z", "bob", bcryptHash 3 "password123", 0, 0, true⟩] ∧
      db'.profiles = emptyDb.profiles ++ [⟨"np", "nu", none, 1, 0, 0, 0, 0, 0⟩] ∧
      db'.preferences = emptyDb.preferences ++ [⟨"nr", "nu", true, "en", "light", 0, 0⟩] ∧
      db'.resetTokens = emptyDb.resetTokens ∧
      validateToken 0 resp.token = Except.ok ⟨true, some "nu", some "x@y.z", some "bob"⟩ ∧
      validateToken 0 resp.refreshToken = Except.ok ⟨true, some "nu", some "x@y.z", some "bob"⟩ :=
  c5_register_success 0 3 "nu" "np" "nr" emptyDb ⟨"x@y.z", "password123", "bob"⟩
    (by decide) (by decide) (by decide) (by decide)

/-- C8: with a well-formed email and a policy-compliant password,
`registerUser` fails `EMAIL_TAKEN` whenever an account with that email
exists — with no condition on the username, so the email check wins even
when the username is also taken — and fails `USERNAME_TAKEN` when the email
is free but the username exists; and the two format validations run before
any store access: an invalid email, or a valid email with a short password,
produces the same validation error for every store state. -/
theorem c8_register_conflict_order (now salt : Nat) (uid pid rid : String)
    (db : Database) (data : RegisterRequest)
    (hemail : validateEmail data.email = true)
    (hpw : PASSWORD_MIN_LENGTH ≤ data.password.length) :
    (∀ u, findUserByEmail db data.email = some u →
      registerUser now salt uid pid rid db data =
        Except.error ⟨ErrorCode.EMAIL_TAKEN, "Email is already registered", 409⟩) ∧
    (findUserByEmail db data.email = none →
      ∀ u, findUserByUsername db data.username = some u →
      registerUser now salt uid pid rid db data =
        Except.error ⟨ErrorCode.USERNAME_TAKEN, "Username is already taken", 409⟩) ∧
    (∀ other dbA dbB, validateEmail other.email = false →
      registerUser now salt uid pid rid dbA other =
        Except.error ⟨ErrorCode.INVALID_EMAIL, "Invalid email format", 400⟩ ∧
      registerUser now salt uid pid rid dbB other =
        Except.error ⟨ErrorCode.INVALID_EMAIL, "Invalid email format", 400⟩) ∧
    (∀ other dbA dbB, validateEmail other.email = true →
      validatePassword other.password = false →
      registerUser now salt uid pid rid dbA other =
        Except.error ⟨ErrorCode.WEAK_PASSWORD, "Password must be at least 8 characters long", 400⟩ ∧
      registerUser now salt uid pid rid dbB other =
        Except.error ⟨ErrorCode.WEAK_PASSWORD, "Password must be at least 8 characters long", 400⟩) := by
  refine ⟨?_, ?_, ?_, ?_⟩
  · intro u htaken
    simp [registerUser, hemail, validatePassword, hpw, htaken]
  · intro hfree u htaken
    simp [registerUser, hemail, validatePassword, hpw, hfree, htaken]
  · intro other dbA dbB hbad
    exact ⟨by simp [registerUser, hbad], by simp [registerUser, hbad]⟩
  · intro other dbA dbB hok hshort
    exact ⟨by simp [registerUser, hok, hshort], by simp [registerUser, hok, hshort]⟩

/-- Closed instantiation of `c8_register_conflict_order` against `sampleDb`:
taken email (with the username also taken), free email with taken username,
and the two store-independent validation failures. -/
theorem c8_register_conflict_order_witness :
    registerUser 0 3 "nu" "np" "nr" sampleDb ⟨"a@b.c", "password123", "alice"⟩ =
      Except.error ⟨ErrorCode.EMAIL_TAKEN, "Email is already registered", 409⟩ ∧
    registerUser 0 3 "nu" "np" "nr" sampleDb ⟨"new@x.y", "password123", "alice"⟩ =
      Except.error ⟨ErrorCode.USERNAME_TAKEN, "Username is already taken", 409⟩ ∧
    (registerUser 0 3 "nu" "np" "nr" emptyDb ⟨"bad-email", "password123", "zoe"⟩ =
        Except.error ⟨ErrorCode.INVALID_EMAIL, "Invalid email format", 400⟩ ∧
      registerUser 0 3 "nu" "np" "nr" sampleDb ⟨"bad-email", "password123", "zoe"⟩ =
        Except.error ⟨ErrorCode.INVALID_EMAIL, "Invalid email format", 400⟩) ∧
    (registerUser 0 3 "nu" "np" "nr" emptyDb ⟨"ok@x.y", "short", "zoe"⟩ =
        Except.error ⟨ErrorCode.WEAK_PASSWORD, "Password must be at least 8 characters long", 400⟩ ∧
      registerUser 0 3 "nu" "np" "nr" sampleDb ⟨"ok@x.y", "short", "zoe"⟩ =
        Except.error ⟨ErrorCode.WEAK_PASSWORD, "Password must be at least 8 characters long", 400⟩) :=
  ⟨(c8_register_conflict_order 0 3 "nu" "np" "nr" sampleDb ⟨"a@b.c", "password123", "alice"⟩
      (by decide) (by decide)).1 aliceUser (by decide),
   (c8_register_conflict_order 0 3 "nu" "np" "nr" sampleDb ⟨"new@x.y", "password123", "alice"⟩
      (by decide) (by decide)).2.1 (by decide) aliceUser (by decide),
   (c8_register_conflict_order 0 3 "nu" "np" "nr" sampleDb ⟨"a@b.c", "password123", "alice"⟩
      (by decide) (by decide)).2.2.1 ⟨"bad-email", "password123", "zoe"⟩ emptyDb sampleDb (by decide),
   (c8_register_conflict_order 0 3 "nu" "np" "nr" sampleDb ⟨"a@b.c", "password123", "alice"⟩
      (by decide) (by decide)).2.2.2 ⟨"ok@x.y", "short", "zoe"⟩ emptyDb sampleDb
      (by decide) (by decide)⟩

/-- C10: for an existing user with profile and preferences rows,
`updateProfile` and `updatePreferences` change exactly the fields present in
the request plus the `updated_at` timestamp — every absent field, every
identity field, the account rows, and the untouched sibling relation are
unchanged — and each of `getUserWithProfile`, `updateProfile` and
`updatePreferences` fails `USER_NOT_FOUND` independently for each missing
sub-resource (account, profile, preferences). -/
theorem c10_update_frame_and_404 (now : Nat) (db : Database) (userId : String)
    (upd : UpdateProfileRequest) (updp : UpdatePreferencesRequest)
    (u : User) (p : UserProfile) (q : UserPreferences)
    (hu : findUserById db userId = some u)
    (hp : findUserProfile db userId = some p)
    (hq : findUserPreferences db userId = some q) :
    (∃ p' db',
      updateProfile now db userId upd = Except.ok (⟨u, p', q⟩, db') ∧
      (∀ v, upd.avatar_url = some v → p'.avatar_url = some v) ∧
      (upd.avatar_url = none → p'.avatar_url = p.avatar_url) ∧
      (∀ v, upd.level = some v → p'.level = v) ∧
      (upd.level = none → p'.level = p.level) ∧
      (∀ v, upd.experience = some v → p'.experience = v) ∧
      (upd.experience = none → p'.experience = p.experience) ∧
      (∀ v, upd.stats_wins = some v → p'.stats_wins = v) ∧
      (upd.stats_wins = none → p'.stats_wins = p.stats_wins) ∧
      (∀ v, upd.stats_losses = some v → p'.stats_losses = v) ∧
      (upd.stats_losses = none → p'.stats_losses = p.stats_losses) ∧
      p'.id = p.id ∧ p'.user_id = p.user_id ∧ p'.created_at = p.created_at ∧
      p'.updated_at = now ∧
      db'.users = db.users ∧ db'.preferences = db.preferences ∧
      db'.resetTokens = db.resetTokens) ∧
    (∃ q' db',
      updatePreferences now db userId updp = Except.ok (⟨u, p, q'⟩, db') ∧
      (∀ v, updp.notifications_enabled = some v → q'.notifications_enabled = v) ∧
      (updp.notifications_enabled = none →
        q'.notifications_enabled = q.notifications_enabled) ∧
      (∀ v, updp.language = some v → q'.language = v) ∧
      (updp.language = none → q'.language = q.language) ∧
      (∀ v, updp.theme = some v → q'.theme = v) ∧
      (updp.theme = none → q'.theme = q.theme) ∧
      q'.id = q.id ∧ q'.user_id = q.user_id ∧ q'.created_at = q.created_at ∧
      q'.updated_at = now ∧
      db'.users = db.users ∧ db'.profiles = db.profiles ∧
      db'.resetTokens = db.resetTokens) ∧
    (∀ db2 uid2, findUserById db2 uid2 = none →
      getUserWithProfile db2 uid2 =
        Except.error ⟨ErrorCode.USER_NOT_FOUND, "User not found", 404⟩ ∧
      updateProfile now db2 uid2 upd =
        Except.error ⟨ErrorCode.USER_NOT_FOUND, "User not found", 404⟩ ∧
      updatePreferences now db2 uid2 updp =
        Except.error ⟨ErrorCode.USER_NOT_FOUND, "User not found", 404⟩) ∧
    (∀ db2 uid2 u2, findUserById db2 uid2 = some u2 →
      findUserProfile db2 uid2 = none →
      getUserWithProfile db2 uid2 =
        Except.error ⟨ErrorCode.USER_NOT_FOUND, "User profile not found", 404⟩ ∧
      updateProfile now db2 uid2 upd =
        Except.error ⟨ErrorCode.USER_NOT_FOUND, "User profile not found", 404⟩) ∧
    (∀ db2 uid2 u2 p2, findUserById db2 uid2 = some u2 →
      findUserProfile db2 uid2 = some p2 →
      findUserPreferences db2 uid2 = none →
      getUserWithProfile db2 uid2 =
        Except.error ⟨ErrorCode.USER_NOT_FOUND, "User preferences not found", 404⟩ ∧
      updateProfile now db2 uid2 upd =
        Except.error ⟨ErrorCode.USER_NOT_FOUND, "User preferences not found", 404⟩) ∧
    (∀ db2 uid2 u2, findUserById db2 uid2 = some u2 →
      findUserPreferences db2 uid2 = none →
      updatePreferences now db2 uid2 updp =
        Except.error ⟨ErrorCode.USER_NOT_FOUND, "User preferences not found", 404⟩) ∧
    (∀ db2 uid2 u2 q2, findUserById db2 uid2 = some u2 →
      findUserPreferences db2 uid2 = some q2 →
      findUserProfile db2 uid2 = none →
      updatePreferences now db2 uid2 updp =
        Except.error ⟨ErrorCode.USER_NOT_FOUND, "User profile not found", 404⟩) := by
  have hpfind : db.profiles.find? (fun r => r.user_id == userId) = some p := hp
  have hqfind : db.preferences.find? (fun r => r.user_id == userId) = some q := hq
  refine ⟨?_, ?_, ?_, ?_, ?_, ?_, ?_⟩
  · refine ⟨applyProfileUpdates now upd p,
      { db with profiles := db.profiles.map fun r =>
          if r.user_id == userId then applyProfileUpdates now upd r else r },
      ?_, ?_, ?_, ?_, ?_, ?_, ?_, ?_, ?_, ?_, ?_, rfl, rfl, rfl, rfl, rfl, rfl, rfl⟩
    · simp [updateProfile, hu, updateUserProfile, hpfind, findUserPreferences, hqfind]
    · intro v hv; simp [applyProfileUpdates, hv]
    · intro hv; simp [applyProfileUpdates, hv]
    · intro v hv; simp [applyProfileUpdates, hv]
    · intro hv; simp [applyProfileUpdates, hv]
    · intro v hv; simp [applyProfileUpdates, hv]
    · intro hv; simp [applyProfileUpdates, hv]
    · intro v hv; simp [applyProfileUpdates, hv]
    · intro hv; simp [applyProfileUpdates, hv]
    · intro v hv; simp [applyProfileUpdates, hv]
    · intro hv; simp [applyProfileUpdates, hv]
  · refine ⟨applyPreferencesUpdates now updp q,
      { db with preferences := db.preferences.map fun r =>
          if r.user_id == userId then applyPreferencesUpdates now updp r else r },
      ?_, ?_, ?_, ?_, ?_, ?_, ?_, rfl, rfl, rfl, rfl, rfl, rfl, rfl⟩
    · simp [updatePreferences, hu, updateUserPreferences, hqfind, findUserProfile, hpfind]
    · intro v hv; simp [applyPreferencesUpdates, hv]
    · intro hv; simp [applyPreferencesUpdates, hv]
    · intro v hv; simp [applyPreferencesUpdates, hv]
    · intro hv; simp [applyPreferencesUpdates, hv]
    · intro v hv; simp [applyPreferencesUpdates, hv]
    · intro hv; simp [applyPreferencesUpdates, hv]
  · intro db2 uid2 hnone
    exact ⟨by simp [getUserWithProfile, hnone],
      by simp [updateProfile, hnone], by simp [updatePreferences, hnone]⟩
  · intro db2 uid2 u2 hu2 hnop
    have hnofind : db2.profiles.find? (fun r => r.user_id == uid2) = none := hnop
    exact ⟨by simp [getUserWithProfile, hu2, findUserProfile, hnofind],
      by simp [updateProfile, hu2, updateUserProfile, hnofind]⟩
  · intro db2 uid2 u2 p2 hu2 hp2 hnoq
    have hpfind2 : db2.profiles.find? (fun r => r.user_id == uid2) = some p2 := hp2
    have hnofind : db2.preferences.find? (fun r => r.user_id == uid2) = none := hnoq
    exact ⟨by simp [getUserWithProfile, hu2, findUserProfile, hpfind2,
        findUserPreferences, hnofind],
      by simp [updateProfile, hu2, updateUserProfile, hpfind2,
        findUserPreferences, hnofind]⟩
  · intro db2 uid2 u2 hu2 hnoq
    have hnofind : db2.preferences.find? (fun r => r.user_id == uid2) = none := hnoq
    exact (by simp [updatePreferences, hu2, updateUserPreferences, hnofind])
  · intro db2 uid2 u2 q2 hu2 hq2 hnop
    have hqfind2 : db2.preferences.find? (fun r => r.user_id == uid2) = some q2 := hq2
    have hnofind : db2.profiles.find? (fun r => r.user_id == uid2) = none := hnop
    exact (by simp [updatePreferences, hu2, updateUserPreferences, hqfind2,
      findUserProfile, hnofind])

/-- Closed instantiation of `c10_update_frame_and_404` on `sampleDb` with a
partial profile request (avatar, level, experience present; the win/loss
counters absent) and a partial preferences request (notifications and theme
present; language absent). -/
theorem c10_update_frame_and_404_witness :
    (∃ p' db',
      updateProfile 9 sampleDb "u1"
          ⟨some "https://img/av.png", some 5, some 1000, none, none⟩ =
        Except.ok (⟨aliceUser, p', alicePrefs⟩, db') ∧
      (∀ v, (some "https://img/av.png" : Option String) = some v → p'.avatar_url = some v) ∧
      ((some "https://img/av.png" : Option String) = none → p'.avatar_url = aliceProfile.avatar_url) ∧
      (∀ v, (some (5 : Int) : Option Int) = some v → p'.level = v) ∧
      ((some (5 : Int) : Option Int) = none → p'.level = aliceProfile.level) ∧
      (∀ v, (some (1000 : Int) : Option Int) = some v → p'.experience = v) ∧
      ((some (1000 : Int) : Option Int) = none → p'.experience = aliceProfile.experience) ∧
      (∀ v, (none : Option Int) = some v → p'.stats_wins = v) ∧
      ((none : Option Int) = none → p'.stats_wins = aliceProfile.stats_wins) ∧
      (∀ v, (none : Option Int) = some v → p'.stats_losses = v) ∧
      ((none : Option Int) = none → p'.stats_losses = aliceProfile.stats_losses) ∧
      p'.id = aliceProfile.id ∧ p'.user_id = aliceProfile.user_id ∧
      p'.created_at = aliceProfile.created_at ∧ p'.updated_at = 9 ∧
      db'.users = sampleDb.users ∧ db'.preferences = sampleDb.preferences ∧
      db'.resetTokens = sampleDb.resetTokens) ∧
    (∃ q' db',
      updatePreferences 9 sampleDb "u1" ⟨some false, none, some "dark"⟩ =
        Except.ok (⟨aliceUser, aliceProfile, q'⟩, db') ∧
      (∀ v, (some false : Option Bool) = some v → q'.notifications_enabled = v) ∧
      ((some false : Option Bool) = none →
        q'.notifications_enabled = alicePrefs.notifications_enabled) ∧
      (∀ v, (none : Option String) = some v → q'.language = v) ∧
      ((none : Option String) = none → q'.language = alicePrefs.language) ∧
      (∀ v, (some "dark" : Option String) = some v → q'.theme = v) ∧
      ((some "dark" : Option String) = none → q'.theme = alicePrefs.theme) ∧
      q'.id = alicePrefs.id ∧ q'.user_id = alicePrefs.user_id ∧
      q'.created_at = alicePrefs.created_at ∧ q'.updated_at = 9 ∧
      db'.users = sampleDb.users ∧ db'.profiles = sampleDb.profiles ∧
      db'.resetTokens = sampleDb.resetTokens) ∧
    (∀ db2 uid2, findUserById db2 uid2 = none →
      getUserWithProfile db2 uid2 =
        Except.error ⟨ErrorCode.USER_NOT_FOUND, "User not found", 404⟩ ∧
      updateProfile 9 db2 uid2 ⟨some "https://img/av.png", some 5, some 1000, none, none⟩ =
        Except.error ⟨ErrorCode.USER_NOT_FOUND, "User not found", 404⟩ ∧
      updatePreferences 9 db2 uid2 ⟨some false, none, some "dark"⟩ =
        Except.error ⟨ErrorCode.USER_NOT_FOUND, "User not found", 404⟩) ∧
    (∀ db2 uid2 u2, findUserById db2 uid2 = some u2 →
      findUserProfile db2 uid2 = none →
      getUserWithProfile db2 uid2 =
        Except.error ⟨ErrorCode.USER_NOT_FOUND, "User profile not found", 404⟩ ∧
      updateProfile 9 db2 uid2 ⟨some "https://img/av.png", some 5, some 1000, none, none⟩ =
        Except.error ⟨ErrorCode.USER_NOT_FOUND, "User profile not found", 404⟩) ∧
    (∀ db2 uid2 u2 p2, findUserById db2 uid2 = some u2 →
      findUserProfile db2 uid2 = some p2 →
      findUserPreferences db2 uid2 = none →
      getUserWithProfile db2 uid2 =
        Except.error ⟨ErrorCode.USER_NOT_FOUND, "User preferences not found", 404⟩ ∧
      updateProfile 9 db2 uid2 ⟨some "https://img/av.png", some 5, some 1000, none, none⟩ =
        Except.error ⟨ErrorCode.USER_NOT_FOUND, "User preferences not found", 404⟩) ∧
    (∀ db2 uid2 u2, findUserById db2 uid2 = some u2 →
      findUserPreferences db2 uid2 = none →
      updatePreferences 9 db2 uid2 ⟨some false, none, some "dark"⟩ =
        Except.error ⟨ErrorCode.USER_NOT_FOUND, "User preferences not found", 404⟩) ∧
    (∀ db2 uid2 u2 q2, findUserById db2 uid2 = some u2 →
      findUserPreferences db2 uid2 = some q2 →
      findUserProfile db2 uid2 = none →
      updatePreferences 9 db2 uid2 ⟨some false, none, some "dark"⟩ =
        Except.error ⟨ErrorCode.USER_NOT_FOUND, "User profile not found", 404⟩) :=
  c10_update_frame_and_404 9 sampleDb "u1"
    ⟨some "https://img/av.png", some 5, some 1000, none, none⟩
    ⟨some false, none, some "dark"⟩ aliceUser aliceProfile alicePrefs
    (by decide) (by decide) (by decide)

end UserService
